import Mathlib

/-!
Verification development for the eodal_basetiffs incremental scene-processing
controller (src/eodal_basetiffs/main.py, src/eodal_basetiffs/utils.py).

Modelling conventions:
- Timestamps are days since 1970-01-01 as `Nat`. The watermark file stores
  only a date, `timedelta` arithmetic in the source is day-granular, and the
  scene directories are named by date, so day granularity is faithful.
  For example 18687 is 2021-03-01 and 18691 is 2021-03-05.
- The filesystem under one monitored folder is a `FolderState`: the optional
  content of the latest_scene file plus the scene sub-directories keyed by
  date (an association list in creation order).
- The external eodal collaborator (catalog query, download, raster writing)
  is represented by the outcome data it produces: a `CatalogResult` per query
  window and a `SceneOutcome` per scene.  Where a claim depends on behaviour
  of the collaborator that is not part of src/, the definition carries a
  doc comment starting with: Modelled from the spec.
-/

namespace EodalBasetiffs

/-- Product files written into a scene sub-directory by `fetch_data`
(main.py lines 132-194). -/
inductive ProductFile where
  | rgb
  | cloud_mask
  | fcir
  | ndvi
  | cloudy_pixel_percentage
  | metadata
deriving DecidableEq, Repr

/-- One scene output sub-directory: the product files it holds and whether
the completion marker file complete.txt is present. -/
structure SceneDir where
  files : List ProductFile
  complete : Bool
deriving DecidableEq, Repr

/-- The monitored output folder: the date stored in the latest_scene file
(`none` when the file does not exist) and the scene sub-directories keyed by
their date. -/
structure FolderState where
  latest_scene : Option Nat
  dirs : List (Nat × SceneDir)
deriving DecidableEq, Repr

/-- Existence test for a scene sub-directory named by date `ts`. -/
def dirExists (fs : FolderState) (ts : Nat) : Bool :=
  (fs.dirs.lookup ts).isSome

/-- Effect of `output_dir_scene.mkdir()` (utils.py line 100): a new empty
scene sub-directory without completion marker. -/
def mkdirScene (fs : FolderState) (ts : Nat) : FolderState :=
  { fs with dirs := fs.dirs ++ [(ts, ⟨[], false⟩)] }

/-- Embeds `get_latest_scene` (utils.py lines 43-62): the date in the
latest_scene file, or the START_DATE of the constants object when the file
does not exist. -/
def get_latest_scene (fs : FolderState) (START_DATE : Nat) : Nat :=
  fs.latest_scene.getD START_DATE

/-- Embeds `set_latest_scene` (utils.py lines 161-178): a timestamp in the
future is replaced by now, then the date is written to the latest_scene
file. -/
def set_latest_scene (now : Nat) (fs : FolderState) (timestamp : Nat) : FolderState :=
  { fs with latest_scene := some (min timestamp now) }

/-- Embeds `indicate_complete` (utils.py lines 65-78): writes the file
complete.txt into the scene sub-directory. -/
def indicate_complete (fs : FolderState) (ts : Nat) : FolderState :=
  { fs with
    dirs := fs.dirs.map fun p =>
      if p.1 = ts then (p.1, { p.2 with complete := true }) else p }

/-- The SceneProcessedException raised by `make_output_dir_scene`. -/
inductive SceneProcessedException where
  | scene_processed
deriving DecidableEq

/-- The skip test of `make_output_dir_scene` (utils.py line 97) is the Python
expression `output_dir_scene.exists() and output_dir_scene.joinpath('complete')`.
`Path.joinpath` returns a `Path` object and every `Path` object is truthy in
Python, so the second conjunct is constantly true: no existence check of any
completion marker file happens (and the joined name is complete, while
`indicate_complete` writes complete.txt). -/
def joinpath_complete_is_truthy : Bool := true

/-- Embeds `make_output_dir_scene` (utils.py lines 81-101).  Raises
`SceneProcessedException` when the skip test fires, otherwise creates the
scene sub-directory and returns the updated folder.  The `mkdir` call can
never hit an existing directory because the skip test already fired in that
case. -/
def make_output_dir_scene (fs : FolderState) (ts : Nat) :
    Except SceneProcessedException (FolderState × Nat) :=
  if dirExists fs ts && joinpath_complete_is_truthy then
    .error .scene_processed
  else
    .ok (mkdirScene fs ts, ts)

/-! ## NDVI storage encoding (`scale_ndvi`, utils.py lines 181-201) -/

/-- The scale attribute written on the stored NDVI band. -/
def ndvi_scale : ℚ := 1 / 10000

/-- The offset attribute written on the stored NDVI band. -/
def ndvi_offset : ℚ := -1

/-- The nodata attribute written on the stored NDVI band. -/
def ndvi_nodata : ℕ := 21000

/-- Embeds `scale_ndvi` per pixel: `values * 10000 + 10000` followed by
`.astype(np.uint16)`.  The numpy cast truncates the fractional part toward
zero and reduces modulo 2^16; for the non-negative values produced by
in-range NDVI the truncation equals the floor. -/
def scale_ndvi_stored (v : ℚ) : ℕ :=
  (Int.floor (v * 10000 + 10000)).toNat % 2 ^ 16

/-- Decoding a stored NDVI value with the band attributes:
physical = stored * scale + offset. -/
def ndvi_decoded (stored : ℕ) : ℚ :=
  (stored : ℚ) * ndvi_scale + ndvi_offset

/-! ## The scene loop of `fetch_data` and the controller `monitor_folder` -/

/-- Outcome of the collaborator calls made while handling one scene inside
the loop of `fetch_data`: `ok` means post-processing and every write
succeed, `deriveError` means `post_process_scene` raises (main.py lines
126-130), `writeError stage` means one of the write calls raises after
`stage` product files were already written (main.py lines 132-194, none of
which sit inside a try block). -/
inductive SceneOutcome where
  | ok
  | deriveError
  | writeError (stage : Nat)
deriving DecidableEq, Repr

/-- One scene of a fetch batch: its sensing date, whether a blue band is
present (main.py line 134), and the collaborator outcome for it. -/
structure Scene where
  ts : Nat
  hasBlue : Bool
  outcome : SceneOutcome
deriving DecidableEq, Repr

/-- The product files `fetch_data` writes for one fully processed scene, in
program order; the RGB raster only when a blue band is present. -/
def productFiles (hasBlue : Bool) : List ProductFile :=
  (if hasBlue then [ProductFile.rgb] else []) ++
    [ProductFile.cloud_mask, ProductFile.fcir, ProductFile.ndvi,
     ProductFile.cloudy_pixel_percentage, ProductFile.metadata]

/-- Replaces the file list of the scene sub-directory named `ts`. -/
def writeFilesToDir (fs : FolderState) (ts : Nat) (files : List ProductFile) :
    FolderState :=
  { fs with
    dirs := fs.dirs.map fun p =>
      if p.1 = ts then (p.1, { p.2 with files := files }) else p }

/-- One iteration of the scene loop of `fetch_data` (main.py lines 107-201).
`.ok` is a completed loop body (including the two `continue` paths),
`.error` is an exception escaping the loop body: only the write calls are
outside a try block, so only a `writeError` escapes, aborting the whole
batch.  On `SceneProcessedException` the handler calls `set_latest_scene`
and continues; on a post-processing error it logs and continues with the
directory already created; on success it writes the products, then
`set_latest_scene`, then `indicate_complete`. -/
def process_scene (now : Nat) (fs : FolderState) (sc : Scene) :
    Except FolderState FolderState :=
  match make_output_dir_scene fs sc.ts with
  | .error _ => .ok (set_latest_scene now fs sc.ts)
  | .ok (fs1, _) =>
    match sc.outcome with
    | .deriveError => .ok fs1
    | .writeError stage =>
        .error (writeFilesToDir fs1 sc.ts ((productFiles sc.hasBlue).take stage))
    | .ok =>
        .ok (indicate_complete
              (set_latest_scene now (writeFilesToDir fs1 sc.ts (productFiles sc.hasBlue)) sc.ts)
              sc.ts)

/-- The scene loop of `fetch_data` over a batch: iterates `process_scene`,
an escaping exception stops the loop (the Bool records whether one
escaped). -/
def process_batch (now : Nat) (fs : FolderState) : List Scene → FolderState × Bool
  | [] => (fs, false)
  | sc :: rest =>
    match process_scene now fs sc with
    | .ok fs1 => process_batch now fs1 rest
    | .error fs1 => (fs1, true)

/-- The latest_scene value after a batch in which every scene takes the
skip path: each skipped scene overwrites the watermark with its clamped
date (helper for stating the all-skip behaviour of the scene loop). -/
def skip_watermark (now : Nat) (w : Option Nat) : List Scene → Option Nat
  | [] => w
  | sc :: rest => skip_watermark now (some (min sc.ts now)) rest

/-- Insertion into a list at the first position with a not-smaller sensing
date (helper for `scenes_in_time_order`). -/
def insertByTs (sc : Scene) : List Scene → List Scene
  | [] => [sc]
  | b :: rest => if sc.ts ≤ b.ts then sc :: b :: rest else b :: insertByTs sc rest

/-- Modelled from the spec: `mapper.data`, the scene collection produced by
the external eodal collaborator (not part of src/), yields `(timestamp,
scene)` pairs "ordered ascending by timestamp", whatever order the catalog
returned them in.  Realised as an insertion sort on the sensing date. -/
def scenes_in_time_order : List Scene → List Scene
  | [] => []
  | sc :: rest => insertByTs sc (scenes_in_time_order rest)

/-- Result of the catalog interaction at the start of `fetch_data`:
`error` models an exception raised by `query_scenes` or `load_scenes`
(both leave the folder untouched), `empty` an empty metadata frame,
`scenes l` a loaded scene collection. -/
inductive CatalogResult where
  | error
  | empty
  | scenes (l : List Scene)

/-- Embeds `fetch_data` (main.py lines 63-201) given the catalog result for
its query window.  With no scenes available it writes `time_end` to the
latest_scene file and returns (main.py lines 85-94); otherwise it runs the
scene loop over the collection in ascending timestamp order.  The Bool
records whether an exception escaped `fetch_data`. -/
def fetch_data (now time_end : Nat) (fs : FolderState) (res : CatalogResult) :
    FolderState × Bool :=
  match res with
  | .error => (fs, true)
  | .empty => (set_latest_scene now fs time_end, false)
  | .scenes l => process_batch now fs (scenes_in_time_order l)

/-- One invocation of `monitor_folder` without the run_till_complete
recursion (main.py lines 204-276): read the watermark, compute
`time_start = watermark + 1 day`, return immediately when `time_start` is in
the future, otherwise fetch the window `[time_start, time_start + incr]`.
The catalog behaviour `beh` maps a query window to its result; the
exception handler around `fetch_data` only logs, so both outcomes continue
identically. -/
def monitor_folder_once (beh : Nat → Nat → CatalogResult)
    (now incr START_DATE : Nat) (fs : FolderState) : FolderState :=
  if get_latest_scene fs START_DATE + 1 > now then fs
  else
    (fetch_data now (get_latest_scene fs START_DATE + 1 + incr) fs
      (beh (get_latest_scene fs START_DATE + 1)
        (get_latest_scene fs START_DATE + 1 + incr))).1

/-- The run_till_complete recursion of `monitor_folder` (main.py lines
278-288): after each pass the function calls itself unconditionally and the
recursion only returns through the `time_start > now` guard.  The source
recursion is unbounded, so it is modelled with explicit fuel: the real
program terminates from a state iff some fuel makes the result satisfy the
guard. -/
def monitor_folder_loop (beh : Nat → Nat → CatalogResult)
    (now incr START_DATE : Nat) : Nat → FolderState → FolderState
  | 0, fs => fs
  | fuel + 1, fs =>
    if get_latest_scene fs START_DATE + 1 > now then fs
    else
      monitor_folder_loop beh now incr START_DATE fuel
        (monitor_folder_once beh now incr START_DATE fs)

/-- Embeds `monitor_folder` with its run_till_complete parameter: a single
pass when it is false, the recursive loop when it is true. -/
def monitor_folder (beh : Nat → Nat → CatalogResult)
    (now incr START_DATE : Nat) (run_till_complete : Bool) (fuel : Nat)
    (fs : FolderState) : FolderState :=
  if run_till_complete then monitor_folder_loop beh now incr START_DATE fuel fs
  else monitor_folder_once beh now incr START_DATE fs

/-! ## Cloud mask derivation (`post_process_scene`, utils.py lines 104-158) -/

/-- One pixel of the classification input to the cloud mask: the class value
of the Scene Classification Layer (Sentinel-2) or quality band (Landsat),
and whether the pixel lies inside the AOI validity mask. -/
structure Pixel where
  scl : Nat
  inAOI : Bool
deriving DecidableEq, Repr

/-- Modelled from the spec: `get_cloud_and_shadow_mask` of the external
eodal sensor classes (not part of src/) flags a pixel iff its class-band
value is one of the given cloud classes and the pixel lies inside the AOI
validity mask carried by the band. -/
def get_cloud_and_shadow_mask (cloud_classes : List Nat) (p : Pixel) : Bool :=
  decide (p.scl ∈ cloud_classes) && p.inAOI

/-- The two sensor families `post_process_scene` dispatches on. -/
inductive SensorKind where
  | sentinel2
  | landsat
deriving DecidableEq, Repr

/-- The cloud class lists of `post_process_scene` (utils.py lines 129-144):
SCL classes 3, 8, 9 for Sentinel-2 (cirrus class 10 deliberately excluded),
quality class 3 for Landsat. -/
def cloud_mask_classes : SensorKind → List Nat
  | .sentinel2 => [3, 8, 9]
  | .landsat => [3]

/-- The cloud_mask band value of one pixel after the uint8 cast of
`post_process_scene` (utils.py lines 146-149). -/
def cloud_mask_pixel (k : SensorKind) (p : Pixel) : Nat :=
  if get_cloud_and_shadow_mask (cloud_mask_classes k) p then 1 else 0

/-! ## The CLI (`cli`, main.py lines 291-372) -/

/-- The platform selector of the CLI. -/
inductive Platform where
  | sentinel2
  | landsat_c2_l1
  | landsat_c2_l2
deriving DecidableEq, Repr

/-- The parsed CLI arguments (main.py lines 300-338). -/
structure CliArgs where
  area_of_interest : Option String
  output_dir : Option String
  temporal_increment_days : Nat
  target_crs : Nat
  platform : Platform
  run_till_complete : Bool
deriving DecidableEq

/-- The argument list of a `monitor_folder` invocation; the default of
run_till_complete mirrors the parameter default in main.py line 210. -/
structure MonitorFolderCall where
  temporal_increment_days : Nat
  target_crs : Nat
  run_till_complete : Bool := false
deriving DecidableEq

/-- The `monitor_folder` invocation built by `cli` (main.py lines 366-372):
`temporal_increment_days` and `target_crs` are forwarded from the parsed
arguments, while run_till_complete is absent from the call, so the
parameter default applies. -/
def cli_monitor_folder_call (args : CliArgs) : MonitorFolderCall :=
  { temporal_increment_days := args.temporal_increment_days,
    target_crs := args.target_crs }

/-! ## Claim C1 -/

/-- C1: the claim states that `make_output_dir_scene` raises
`SceneProcessedException` iff the scene directory exists and contains the
completion marker complete.txt.  The code raises it for a directory that
exists without any completion marker (the skip test never inspects the
marker because `joinpath` returns a truthy `Path` object), so an
interrupted scene is skipped instead of reprocessed — and the handler in
`fetch_data` then even advances the watermark to that scene.  This theorem
evaluates the code on the failing input: directory 2021-03-01 exists, holds
no files and no complete.txt, yet the exception is raised, and a later run
of the loop body on that scene only advances the watermark. -/
theorem C1_incomplete_dir_is_skipped :
    make_output_dir_scene ⟨none, [(18687, ⟨[], false⟩)]⟩ 18687
      = Except.error SceneProcessedException.scene_processed ∧
    (FolderState.mk none [(18687, ⟨[], false⟩)]).dirs.lookup 18687
      = some ⟨[], false⟩ ∧
    process_scene 20000 ⟨none, [(18687, ⟨[], false⟩)]⟩ ⟨18687, true, SceneOutcome.ok⟩
      = Except.ok ⟨some 18687, [(18687, ⟨[], false⟩)]⟩ := by
  refine ⟨rfl, rfl, rfl⟩

/-! ## Claim C2 -/

/-- C2 counterexample: at the in-range physical value v = 1/20000 the code
stores `floor(v * 10000 + 10000) = 10000` (the uint16 cast truncates),
while the claimed formula `round(v * 10000 + 10000)` gives 10001. -/
theorem C2_stored_is_not_round :
    scale_ndvi_stored (1/20000) = 10000 ∧
    round ((1/20000 : ℚ) * 10000 + 10000) = 10001 ∧
    (scale_ndvi_stored (1/20000) : ℤ) ≠ round ((1/20000 : ℚ) * 10000 + 10000) := by
  have h1 : scale_ndvi_stored (1/20000) = 10000 := by
    unfold scale_ndvi_stored
    have h : ((1/20000 : ℚ) * 10000 + 10000) = 20001/2 := by norm_num
    rw [h]
    have h2 : ⌊(20001/2 : ℚ)⌋ = 10000 := by
      rw [Int.floor_eq_iff]
      norm_num
    rw [h2]
    decide
  have h2 : round ((1/20000 : ℚ) * 10000 + 10000) = 10001 := by
    rw [round_eq]; norm_num
  refine ⟨h1, h2, ?_⟩
  rw [h1, h2]
  decide

/-- C2 (amended): for every physical NDVI value v in [-1, 1], `scale_ndvi`
stores `floor(v * 10000 + 10000)` — truncation by the uint16 cast, not
rounding — as unsigned 16-bit with scale 0.0001, offset -1, nodata 21000;
the stored value stays in [0, 20000] so nodata 21000 never arises from an
in-range value, and decoding with the band attributes recovers v with
error strictly below 0.0001. -/
theorem C2_ndvi_truncation_roundtrip (v : ℚ) (hlo : -1 ≤ v) (hhi : v ≤ 1) :
    scale_ndvi_stored v = (Int.floor (v * 10000 + 10000)).toNat ∧
    scale_ndvi_stored v ≤ 20000 ∧
    scale_ndvi_stored v ≠ ndvi_nodata ∧
    |v - ndvi_decoded (scale_ndvi_stored v)| < ndvi_scale := by
  have hx0 : (0 : ℚ) ≤ v * 10000 + 10000 := by linarith
  have hx2 : v * 10000 + 10000 ≤ 20000 := by linarith
  have hf0 : 0 ≤ Int.floor (v * 10000 + 10000) := Int.floor_nonneg.mpr hx0
  have hfle : ((Int.floor (v * 10000 + 10000)) : ℚ) ≤ v * 10000 + 10000 :=
    Int.floor_le _
  have hf2 : Int.floor (v * 10000 + 10000) ≤ 20000 := by
    have h : ((Int.floor (v * 10000 + 10000)) : ℚ) ≤ (20000 : ℤ) := by
      push_cast
      linarith
    exact_mod_cast h
  have hkey : scale_ndvi_stored v = (Int.floor (v * 10000 + 10000)).toNat := by
    unfold scale_ndvi_stored
    apply Nat.mod_eq_of_lt
    omega
  refine ⟨hkey, by rw [hkey]; omega, by rw [hkey]; unfold ndvi_nodata; omega, ?_⟩
  rw [hkey]
  unfold ndvi_decoded ndvi_scale ndvi_offset
  have hcast : (((Int.floor (v * 10000 + 10000)).toNat : ℕ) : ℚ)
      = ((Int.floor (v * 10000 + 10000)) : ℚ) := by
    exact_mod_cast congrArg (fun z : ℤ => (z : ℚ)) (Int.toNat_of_nonneg hf0)
  rw [hcast]
  have hhigh : v * 10000 + 10000 < Int.floor (v * 10000 + 10000) + 1 :=
    Int.lt_floor_add_one _
  rw [abs_of_nonneg (by linarith)]
  linarith

/-- C2 witness: the amended statement instantiated at v = 37/100. -/
theorem C2_ndvi_truncation_roundtrip_witness :
    scale_ndvi_stored (37/100) = (Int.floor ((37/100 : ℚ) * 10000 + 10000)).toNat ∧
    scale_ndvi_stored (37/100) ≤ 20000 ∧
    scale_ndvi_stored (37/100) ≠ ndvi_nodata ∧
    |(37/100 : ℚ) - ndvi_decoded (scale_ndvi_stored (37/100))| < ndvi_scale :=
  C2_ndvi_truncation_roundtrip (37/100) (by norm_num) (by norm_num)

/-! ## Helper lemmas about the scene loop -/

/-- Unfolding of the loop body on a scene whose directory already exists:
the skip test fires, the handler sets the watermark and continues. -/
theorem process_scene_skip (now : Nat) (fs : FolderState) (sc : Scene)
    (h : (fs.dirs.lookup sc.ts).isSome = true) :
    process_scene now fs sc = .ok (set_latest_scene now fs sc.ts) := by
  unfold process_scene make_output_dir_scene dirExists
  rw [h]
  rfl

/-- Unfolding of the loop body on a scene whose directory does not exist
yet: the directory is created and the outcome decides the rest. -/
theorem process_scene_fresh (now : Nat) (fs : FolderState) (sc : Scene)
    (h : fs.dirs.lookup sc.ts = none) :
    process_scene now fs sc =
      match sc.outcome with
      | .deriveError => .ok (mkdirScene fs sc.ts)
      | .writeError stage =>
          .error (writeFilesToDir (mkdirScene fs sc.ts) sc.ts
            ((productFiles sc.hasBlue).take stage))
      | .ok =>
          .ok (indicate_complete
            (set_latest_scene now
              (writeFilesToDir (mkdirScene fs sc.ts) sc.ts (productFiles sc.hasBlue)) sc.ts)
            sc.ts) := by
  unfold process_scene make_output_dir_scene dirExists
  rw [h]
  rfl

/-- The scene loop on a non-empty batch steps through its head. -/
theorem process_batch_cons (now : Nat) (fs : FolderState) (sc : Scene)
    (rest : List Scene) :
    process_batch now fs (sc :: rest) =
      match process_scene now fs sc with
      | .ok fs1 => process_batch now fs1 rest
      | .error fs1 => (fs1, true) := rfl

/-! ## Claim C3 -/

/-- C3 counterexample: in the batch 2021-03-01 (write error), 2021-03-05
(would succeed), the write error escapes the scene loop: `fetch_data`
aborts with an exception, the second scene is never processed (its
directory is not even created) and the watermark is not advanced — the
claim that write errors are caught at scene granularity and the remaining
scenes continue is false. -/
theorem C3_write_error_aborts_batch :
    (process_batch 20000 ⟨none, []⟩
        [⟨18687, true, SceneOutcome.writeError 1⟩, ⟨18691, true, SceneOutcome.ok⟩]).2
      = true ∧
    (process_batch 20000 ⟨none, []⟩
        [⟨18687, true, SceneOutcome.writeError 1⟩, ⟨18691, true, SceneOutcome.ok⟩]).1.latest_scene
      = none ∧
    (process_batch 20000 ⟨none, []⟩
        [⟨18687, true, SceneOutcome.writeError 1⟩, ⟨18691, true, SceneOutcome.ok⟩]).1.dirs.lookup 18691
      = none := by
  refine ⟨rfl, rfl, rfl⟩

/-- C3 (amended): only errors raised while deriving (post-processing) are
caught at scene granularity — the loop then continues with the remaining
scenes, leaving the created directory behind and not advancing the
watermark for that scene; an error while writing the products is not
caught in the loop: it aborts the remaining scenes of the batch (it is
only caught at run level by `monitor_folder`), also without advancing the
watermark. -/
theorem C3_error_isolation_amended (now : Nat) (fs : FolderState) (a b : Scene)
    (rest : List Scene) (st : Nat)
    (ha : fs.dirs.lookup a.ts = none) (hb : fs.dirs.lookup b.ts = none)
    (hao : a.outcome = SceneOutcome.deriveError)
    (hbo : b.outcome = SceneOutcome.writeError st) :
    (process_batch now fs (a :: rest) = process_batch now (mkdirScene fs a.ts) rest ∧
      (mkdirScene fs a.ts).latest_scene = fs.latest_scene) ∧
    (process_batch now fs (b :: rest)
        = (writeFilesToDir (mkdirScene fs b.ts) b.ts ((productFiles b.hasBlue).take st), true) ∧
      (writeFilesToDir (mkdirScene fs b.ts) b.ts ((productFiles b.hasBlue).take st)).latest_scene
        = fs.latest_scene) := by
  refine ⟨⟨?_, rfl⟩, ?_, rfl⟩
  · rw [process_batch_cons, process_scene_fresh now fs a ha, hao]
  · rw [process_batch_cons, process_scene_fresh now fs b hb, hbo]

/-- C3 witness: the amended statement instantiated at a concrete folder and
batch. -/
theorem C3_error_isolation_amended_witness :
    (process_batch 20000 ⟨none, []⟩
        (⟨18687, true, SceneOutcome.deriveError⟩ :: [⟨18695, true, SceneOutcome.ok⟩])
        = process_batch 20000 (mkdirScene ⟨none, []⟩ 18687) [⟨18695, true, SceneOutcome.ok⟩] ∧
      (mkdirScene ⟨none, []⟩ 18687).latest_scene = (FolderState.mk none []).latest_scene) ∧
    (process_batch 20000 ⟨none, []⟩
        (⟨18691, false, SceneOutcome.writeError 1⟩ :: [⟨18695, true, SceneOutcome.ok⟩])
        = (writeFilesToDir (mkdirScene ⟨none, []⟩ 18691) 18691 ((productFiles false).take 1), true) ∧
      (writeFilesToDir (mkdirScene ⟨none, []⟩ 18691) 18691 ((productFiles false).take 1)).latest_scene
        = (FolderState.mk none []).latest_scene) :=
  C3_error_isolation_amended 20000 ⟨none, []⟩
    ⟨18687, true, SceneOutcome.deriveError⟩ ⟨18691, false, SceneOutcome.writeError 1⟩
    [⟨18695, true, SceneOutcome.ok⟩] 1 rfl rfl rfl rfl

/-! ## Claim C5 -/

/-- C5 counterexample: with the batch 2021-03-01 (fails derivation) and
2021-03-05 (succeeds), the final watermark is 2021-03-05 although not both
scenes succeeded — the claim that the watermark becomes 2021-03-05 only if
both scenes succeed is false on the code. -/
theorem C5_later_scene_sets_watermark_alone :
    (fetch_data 20000 18694 ⟨none, []⟩
        (CatalogResult.scenes
          [⟨18691, true, SceneOutcome.ok⟩, ⟨18687, true, SceneOutcome.deriveError⟩])).1.latest_scene
      = some 18691 := rfl

/-- C5 (amended): for the two scenes dated 2021-03-01 and 2021-03-05 in one
batch, in whatever order the collaborator returns them, the controller
processes 2021-03-01 first; the final watermark is 2021-03-05 iff
2021-03-05 succeeds (whether or not 2021-03-01 did); if 2021-03-05 fails
derivation the final watermark is 2021-03-01 provided 2021-03-01 succeeded,
and is untouched when both fail. -/
theorem C5_two_scene_order_amended (o1 o5 : SceneOutcome) (l : List Scene)
    (hl : l = [⟨18687, true, o1⟩, ⟨18691, true, o5⟩] ∨
          l = [⟨18691, true, o5⟩, ⟨18687, true, o1⟩])
    (h1 : o1 = SceneOutcome.ok ∨ o1 = SceneOutcome.deriveError)
    (h5 : o5 = SceneOutcome.ok ∨ o5 = SceneOutcome.deriveError) :
    scenes_in_time_order l = [⟨18687, true, o1⟩, ⟨18691, true, o5⟩] ∧
    (fetch_data 20000 18694 ⟨none, []⟩ (CatalogResult.scenes l)).1.latest_scene
      = (if o5 = SceneOutcome.ok then some 18691
         else if o1 = SceneOutcome.ok then some 18687 else none) := by
  rcases hl with rfl | rfl <;> rcases h1 with rfl | rfl <;> rcases h5 with rfl | rfl <;>
    exact ⟨by decide, by decide⟩

/-- C5 witness: the amended statement instantiated with the collaborator
returning 2021-03-05 first, 2021-03-05 failing derivation and 2021-03-01
succeeding. -/
theorem C5_two_scene_order_amended_witness :
    scenes_in_time_order
        [⟨18691, true, SceneOutcome.deriveError⟩, ⟨18687, true, SceneOutcome.ok⟩]
      = [⟨18687, true, SceneOutcome.ok⟩, ⟨18691, true, SceneOutcome.deriveError⟩] ∧
    (fetch_data 20000 18694 ⟨none, []⟩
        (CatalogResult.scenes
          [⟨18691, true, SceneOutcome.deriveError⟩, ⟨18687, true, SceneOutcome.ok⟩])).1.latest_scene
      = (if SceneOutcome.deriveError = SceneOutcome.ok then some 18691
         else if SceneOutcome.ok = SceneOutcome.ok then some 18687 else none) :=
  C5_two_scene_order_amended SceneOutcome.ok SceneOutcome.deriveError _
    (Or.inr rfl) (Or.inl rfl) (Or.inr rfl)

/-! ## Claim C8 -/

/-- C8 counterexample: with watermark absent (START_DATE 0), now = 5 and a
31-day window, the empty query window ends at time_end = 31, but the
persisted watermark becomes 5 (clamped to now), not time_end — the claim
that the watermark advances to time_end is false when time_end is in the
future. -/
theorem C8_watermark_clamped_to_now :
    (monitor_folder_once (fun _ _ => CatalogResult.empty) 5 30 0 ⟨none, []⟩).latest_scene
      = some 5 ∧
    (monitor_folder_once (fun _ _ => CatalogResult.empty) 5 30 0 ⟨none, []⟩).latest_scene
      ≠ some 31 := by
  refine ⟨rfl, by decide⟩

/-- C8 (amended): a query window matching zero scenes advances the
persisted watermark to min(time_end, now) — time_end clamped to now — and
creates no scene subdirectory, and no exception escapes `fetch_data`. -/
theorem C8_empty_window_amended (now te : Nat) (fs : FolderState) :
    (fetch_data now te fs CatalogResult.empty).1.latest_scene = some (min te now) ∧
    (fetch_data now te fs CatalogResult.empty).1.dirs = fs.dirs ∧
    (fetch_data now te fs CatalogResult.empty).2 = false :=
  ⟨rfl, rfl, rfl⟩

/-! ## Claim C9 -/

/-- A cloud mask pixel is 1 exactly when its class is in the cloud class
list of the sensor and the pixel lies inside the AOI validity mask. -/
theorem cloud_mask_pixel_eq_one (k : SensorKind) (p : Pixel) :
    cloud_mask_pixel k p = 1 ↔ (p.scl ∈ cloud_mask_classes k ∧ p.inAOI = true) := by
  obtain ⟨s, a⟩ := p
  unfold cloud_mask_pixel get_cloud_and_shadow_mask
  by_cases hm : s ∈ cloud_mask_classes k
  · cases a <;> simp [hm]
  · cases a <;> simp [hm]

/-- C9: every cloud_mask pixel value is 0 or 1 (and fits unsigned 8-bit);
for Sentinel-2 a pixel is 1 exactly when its SCL class is 3, 8 or 9 and it
lies inside the AOI validity mask, and cirrus class 10 is never flagged;
for Landsat only quality class 3 marks a pixel, again inside the AOI
validity mask. -/
theorem C9_cloud_mask_binary (k : SensorKind) (p : Pixel) :
    (cloud_mask_pixel k p = 0 ∨ cloud_mask_pixel k p = 1) ∧
    cloud_mask_pixel k p < 2 ^ 8 ∧
    (cloud_mask_pixel SensorKind.sentinel2 p = 1 ↔
      ((p.scl = 3 ∨ p.scl = 8 ∨ p.scl = 9) ∧ p.inAOI = true)) ∧
    cloud_mask_pixel SensorKind.sentinel2 ⟨10, p.inAOI⟩ = 0 ∧
    (cloud_mask_pixel SensorKind.landsat p = 1 ↔ (p.scl = 3 ∧ p.inAOI = true)) := by
  refine ⟨?_, ?_, ?_, ?_, ?_⟩
  · unfold cloud_mask_pixel
    split
    · right; rfl
    · left; rfl
  · unfold cloud_mask_pixel
    split
    · norm_num
    · norm_num
  · rw [cloud_mask_pixel_eq_one]
    simp [cloud_mask_classes]
  · unfold cloud_mask_pixel get_cloud_and_shadow_mask cloud_mask_classes
    simp
  · rw [cloud_mask_pixel_eq_one]
    simp [cloud_mask_classes]

/-! ## Claim C10 -/

/-- C10: the `monitor_folder` call built by `cli` never forwards the parsed
run-till-complete argument — the field keeps its default false for every
parsed argument record — and `monitor_folder` with run_till_complete false
performs exactly one pass (one temporal increment). -/
theorem C10_run_till_complete_not_forwarded (args : CliArgs)
    (beh : Nat → Nat → CatalogResult) (now incr sd fuel : Nat) (fs : FolderState) :
    (cli_monitor_folder_call args).run_till_complete = false ∧
    monitor_folder beh now incr sd false fuel fs
      = monitor_folder_once beh now incr sd fs :=
  ⟨rfl, rfl⟩

/-! ## More helper lemmas: loop-body rewrites, sorting, directory lookups -/

/-- Loop body rewrite: skip path. -/
theorem process_batch_cons_skip (now : Nat) (fs : FolderState) (sc : Scene)
    (rest : List Scene) (h : (fs.dirs.lookup sc.ts).isSome = true) :
    process_batch now fs (sc :: rest)
      = process_batch now (set_latest_scene now fs sc.ts) rest := by
  rw [process_batch_cons, process_scene_skip now fs sc h]

/-- Loop body rewrite: fresh directory, derivation error. -/
theorem process_batch_cons_derive (now : Nat) (fs : FolderState) (sc : Scene)
    (rest : List Scene) (hd : fs.dirs.lookup sc.ts = none)
    (ho : sc.outcome = SceneOutcome.deriveError) :
    process_batch now fs (sc :: rest)
      = process_batch now (mkdirScene fs sc.ts) rest := by
  rw [process_batch_cons, process_scene_fresh now fs sc hd, ho]

/-- Loop body rewrite: fresh directory, write error aborts. -/
theorem process_batch_cons_write (now : Nat) (fs : FolderState) (sc : Scene)
    (rest : List Scene) (st : Nat) (hd : fs.dirs.lookup sc.ts = none)
    (ho : sc.outcome = SceneOutcome.writeError st) :
    process_batch now fs (sc :: rest)
      = (writeFilesToDir (mkdirScene fs sc.ts) sc.ts
          ((productFiles sc.hasBlue).take st), true) := by
  rw [process_batch_cons, process_scene_fresh now fs sc hd, ho]

/-- Loop body rewrite: fresh directory, full success. -/
theorem process_batch_cons_ok (now : Nat) (fs : FolderState) (sc : Scene)
    (rest : List Scene) (hd : fs.dirs.lookup sc.ts = none)
    (ho : sc.outcome = SceneOutcome.ok) :
    process_batch now fs (sc :: rest)
      = process_batch now
          (indicate_complete
            (set_latest_scene now
              (writeFilesToDir (mkdirScene fs sc.ts) sc.ts (productFiles sc.hasBlue)) sc.ts)
            sc.ts) rest := by
  rw [process_batch_cons, process_scene_fresh now fs sc hd, ho]

/-- Membership through `insertByTs`. -/
theorem mem_insertByTs (sc x : Scene) (l : List Scene) :
    x ∈ insertByTs sc l ↔ x = sc ∨ x ∈ l := by
  induction l with
  | nil => simp [insertByTs]
  | cons b rest ih =>
    unfold insertByTs
    split_ifs with hle
    · simp [List.mem_cons]
    · simp only [List.mem_cons, ih]
      tauto

/-- Sorting the batch does not change its members. -/
theorem mem_scenes_in_time_order (x : Scene) (l : List Scene) :
    x ∈ scenes_in_time_order l ↔ x ∈ l := by
  induction l with
  | nil => simp [scenes_in_time_order]
  | cons sc rest ih => simp [scenes_in_time_order, mem_insertByTs, ih]

/-- Insertion never yields the empty list. -/
theorem insertByTs_ne_nil (sc : Scene) (l : List Scene) : insertByTs sc l ≠ [] := by
  cases l with
  | nil => simp [insertByTs]
  | cons b rest =>
    unfold insertByTs
    split_ifs <;> simp

/-- Sorting a non-empty batch yields a non-empty batch. -/
theorem scenes_in_time_order_ne_nil (l : List Scene) (h : l ≠ []) :
    scenes_in_time_order l ≠ [] := by
  cases l with
  | nil => exact absurd rfl h
  | cons sc rest => exact insertByTs_ne_nil sc (scenes_in_time_order rest)

/-- Lookup survival under any key-preserving map (the directory update
helpers only change the stored `SceneDir`, never the key). -/
theorem lookup_isSome_map_fst (f : Nat × SceneDir → Nat × SceneDir)
    (hf : ∀ p, (f p).1 = p.1) (t : Nat) (l : List (Nat × SceneDir)) :
    ((l.map f).lookup t).isSome = (l.lookup t).isSome := by
  induction l with
  | nil => rfl
  | cons p rest ih =>
    simp only [List.map_cons]
    cases ht : t == p.1
    · have ht2 : (t == (f p).1) = false := by rw [hf]; exact ht
      simp [List.lookup, ht, ht2, ih]
    · have ht2 : (t == (f p).1) = true := by rw [hf]; exact ht
      simp [List.lookup, ht, ht2, ih]

/-- Lookup in a list extended by one entry at the back. -/
theorem lookup_append_single (t ts : Nat) (d : SceneDir)
    (l : List (Nat × SceneDir)) :
    ((l ++ [(ts, d)]).lookup t).isSome = ((l.lookup t).isSome || (t == ts)) := by
  induction l with
  | nil => cases ht : t == ts <;> simp [List.lookup, ht]
  | cons p rest ih => cases ht : t == p.1 <;> simp [List.lookup, ht, ih]

/-- A freshly created scene directory exists. -/
theorem dirExists_mkdirScene_self (fs : FolderState) (ts : Nat) :
    dirExists (mkdirScene fs ts) ts = true := by
  simp [dirExists, mkdirScene, lookup_append_single]

/-- Directory creation preserves existing directories. -/
theorem dirExists_mkdirScene (fs : FolderState) (ts t : Nat)
    (h : dirExists fs t = true) : dirExists (mkdirScene fs ts) t = true := by
  simp only [dirExists, mkdirScene] at h ⊢
  rw [lookup_append_single, h]
  rfl

/-- The product write helper preserves directory existence. -/
theorem dirExists_writeFilesToDir (fs : FolderState) (ts t : Nat)
    (files : List ProductFile) (h : dirExists fs t = true) :
    dirExists (writeFilesToDir fs ts files) t = true := by
  simp only [dirExists, writeFilesToDir] at h ⊢
  rw [lookup_isSome_map_fst
      (fun p => if p.1 = ts then (p.1, { p.2 with files := files }) else p)
      (by intro p; dsimp only; split <;> rfl) t fs.dirs]
  exact h

/-- The completion marker helper preserves directory existence. -/
theorem dirExists_indicate_complete (fs : FolderState) (ts t : Nat)
    (h : dirExists fs t = true) :
    dirExists (indicate_complete fs ts) t = true := by
  simp only [dirExists, indicate_complete] at h ⊢
  rw [lookup_isSome_map_fst
      (fun p => if p.1 = ts then (p.1, { p.2 with complete := true }) else p)
      (by intro p; dsimp only; split <;> rfl) t fs.dirs]
  exact h

/-- The scene loop never removes a scene directory. -/
theorem dirExists_process_batch (now : Nat) (l : List Scene) :
    ∀ (fs : FolderState) (t : Nat), dirExists fs t = true →
      dirExists (process_batch now fs l).1 t = true := by
  induction l with
  | nil => intro fs t h; exact h
  | cons sc rest ih =>
    intro fs t h
    cases hd : fs.dirs.lookup sc.ts with
    | some d =>
      rw [process_batch_cons_skip now fs sc rest (by rw [hd]; rfl)]
      exact ih _ t h
    | none =>
      cases ho : sc.outcome with
      | deriveError =>
        rw [process_batch_cons_derive now fs sc rest hd ho]
        exact ih _ t (dirExists_mkdirScene fs sc.ts t h)
      | writeError st =>
        rw [process_batch_cons_write now fs sc rest st hd ho]
        exact dirExists_writeFilesToDir _ _ _ _ (dirExists_mkdirScene fs sc.ts t h)
      | ok =>
        rw [process_batch_cons_ok now fs sc rest hd ho]
        exact ih _ t
          (dirExists_indicate_complete _ _ _
            (dirExists_writeFilesToDir _ _ _ _ (dirExists_mkdirScene fs sc.ts t h)))

/-- After the scene loop ran over a batch, the directory of the first scene
of the batch exists (it is either skipped because it existed, or created
before any outcome can abort the body). -/
theorem dirExists_head_after_batch (now : Nat) (fs : FolderState) (sc : Scene)
    (rest : List Scene) :
    dirExists (process_batch now fs (sc :: rest)).1 sc.ts = true := by
  cases hd : fs.dirs.lookup sc.ts with
  | some d =>
    rw [process_batch_cons_skip now fs sc rest (by rw [hd]; rfl)]
    exact dirExists_process_batch now rest _ sc.ts
      (by show (fs.dirs.lookup sc.ts).isSome = true; rw [hd]; rfl)
  | none =>
    cases ho : sc.outcome with
    | deriveError =>
      rw [process_batch_cons_derive now fs sc rest hd ho]
      exact dirExists_process_batch now rest _ sc.ts (dirExists_mkdirScene_self fs sc.ts)
    | writeError st =>
      rw [process_batch_cons_write now fs sc rest st hd ho]
      exact dirExists_writeFilesToDir _ _ _ _ (dirExists_mkdirScene_self fs sc.ts)
    | ok =>
      rw [process_batch_cons_ok now fs sc rest hd ho]
      exact dirExists_process_batch now rest _ sc.ts
        (dirExists_indicate_complete _ _ _
          (dirExists_writeFilesToDir _ _ _ _ (dirExists_mkdirScene_self fs sc.ts)))

/-! ## Claim C6 -/

/-- The scene loop over a batch whose directories all exist: every scene
takes the skip path, the directories are untouched and the watermark ends
at the clamped date of the last scene. -/
theorem process_batch_all_skip (now : Nat) (l : List Scene) :
    ∀ (fs : FolderState),
      (∀ sc ∈ l, (fs.dirs.lookup sc.ts).isSome = true) →
      process_batch now fs l
        = ({ fs with latest_scene := skip_watermark now fs.latest_scene l }, false) := by
  induction l with
  | nil => intro fs _; rfl
  | cons sc rest ih =>
    intro fs h
    rw [process_batch_cons_skip now fs sc rest (h sc (List.mem_cons_self sc rest))]
    rw [ih (set_latest_scene now fs sc.ts) fun x hx => h x (List.mem_cons_of_mem sc hx)]
    rfl

/-- C6 counterexample: an interrupted scene breaks run-twice idempotence.
Batch: the single scene 2021-03-01, failing derivation every time.  The
first run creates its (empty) directory and leaves the watermark file
absent; the second identical run skips the directory (see C1) and sets the
watermark to 2021-03-01 — the second run changes the persisted watermark,
so the claim is false. -/
theorem C6_second_run_changes_watermark :
    (fetch_data 20000 18694
        (fetch_data 20000 18694 ⟨none, []⟩
          (CatalogResult.scenes [⟨18687, true, SceneOutcome.deriveError⟩])).1
        (CatalogResult.scenes [⟨18687, true, SceneOutcome.deriveError⟩])).1.latest_scene
      = some 18687 ∧
    (fetch_data 20000 18694 ⟨none, []⟩
        (CatalogResult.scenes [⟨18687, true, SceneOutcome.deriveError⟩])).1.latest_scene
      = none := ⟨rfl, rfl⟩

/-- C6 (amended): when every scene the catalog returns already has its
scene directory in the folder (no new upstream scenes in the folder sense),
running `fetch_data` twice with the same window and the same catalog result
is idempotent: the second run reproduces the state after the first run
exactly — same watermark, same scene directories. -/
theorem C6_idempotent_amended (now te : Nat) (fs : FolderState)
    (res : CatalogResult)
    (h : ∀ l, res = CatalogResult.scenes l →
          ∀ sc ∈ l, (fs.dirs.lookup sc.ts).isSome = true) :
    (fetch_data now te (fetch_data now te fs res).1 res).1
      = (fetch_data now te fs res).1 := by
  cases res with
  | error => rfl
  | empty => rfl
  | scenes l =>
    have hmem : ∀ sc ∈ scenes_in_time_order l,
        (fs.dirs.lookup sc.ts).isSome = true :=
      fun sc hsc => h l rfl sc ((mem_scenes_in_time_order sc l).mp hsc)
    show (process_batch now (process_batch now fs (scenes_in_time_order l)).1
            (scenes_in_time_order l)).1
        = (process_batch now fs (scenes_in_time_order l)).1
    rw [process_batch_all_skip now (scenes_in_time_order l) fs hmem]
    show (process_batch now
            { fs with latest_scene := skip_watermark now fs.latest_scene (scenes_in_time_order l) }
            (scenes_in_time_order l)).1
        = { fs with latest_scene := skip_watermark now fs.latest_scene (scenes_in_time_order l) }
    rw [process_batch_all_skip now (scenes_in_time_order l)
        { fs with latest_scene := skip_watermark now fs.latest_scene (scenes_in_time_order l) }
        hmem]
    cases hm : scenes_in_time_order l with
    | nil => rfl
    | cons sc rest => rfl

/-- C6 witness: the amended statement at a folder already holding the
directory of the one returned scene. -/
theorem C6_idempotent_amended_witness :
    (fetch_data 20000 18694
        (fetch_data 20000 18694 ⟨none, [(18687, ⟨[], true⟩)]⟩
          (CatalogResult.scenes [⟨18687, true, SceneOutcome.ok⟩])).1
        (CatalogResult.scenes [⟨18687, true, SceneOutcome.ok⟩])).1
      = (fetch_data 20000 18694 ⟨none, [(18687, ⟨[], true⟩)]⟩
          (CatalogResult.scenes [⟨18687, true, SceneOutcome.ok⟩])).1 :=
  C6_idempotent_amended 20000 18694 ⟨none, [(18687, ⟨[], true⟩)]⟩
    (CatalogResult.scenes [⟨18687, true, SceneOutcome.ok⟩])
    (by
      intro l hl sc hsc
      cases hl
      simp only [List.mem_singleton] at hsc
      rw [hsc]
      rfl)

/-! ## Claim C7 -/

/-- Watermark lower bound through the scene loop: if the watermark is at
least b and every scene of the batch has a clamped date of at least b, the
watermark stays at least b. -/
theorem process_batch_latest_lb (now sd b : Nat) (l : List Scene) :
    ∀ (fs : FolderState),
      b ≤ get_latest_scene fs sd →
      (∀ sc ∈ l, b ≤ min sc.ts now) →
      b ≤ get_latest_scene (process_batch now fs l).1 sd := by
  induction l with
  | nil => intro fs h _; exact h
  | cons sc rest ih =>
    intro fs h hl
    cases hd : fs.dirs.lookup sc.ts with
    | some d =>
      rw [process_batch_cons_skip now fs sc rest (by rw [hd]; rfl)]
      refine ih _ ?_ fun x hx => hl x (List.mem_cons_of_mem sc hx)
      show b ≤ min sc.ts now
      exact hl sc (List.mem_cons_self sc rest)
    | none =>
      cases ho : sc.outcome with
      | deriveError =>
        rw [process_batch_cons_derive now fs sc rest hd ho]
        exact ih _ h fun x hx => hl x (List.mem_cons_of_mem sc hx)
      | writeError st =>
        rw [process_batch_cons_write now fs sc rest st hd ho]
        exact h
      | ok =>
        rw [process_batch_cons_ok now fs sc rest hd ho]
        refine ih _ ?_ fun x hx => hl x (List.mem_cons_of_mem sc hx)
        show b ≤ min sc.ts now
        exact hl sc (List.mem_cons_self sc rest)

/-- One controller pass never decreases the persisted watermark, provided
the catalog only returns scenes dated at or after the window start. -/
theorem latest_mono_once (beh : Nat → Nat → CatalogResult)
    (now incr sd : Nat) (fs : FolderState)
    (hwin : ∀ ts te l, beh ts te = CatalogResult.scenes l → ∀ sc ∈ l, ts ≤ sc.ts) :
    get_latest_scene fs sd ≤ get_latest_scene (monitor_folder_once beh now incr sd fs) sd := by
  unfold monitor_folder_once
  split_ifs with hguard
  · exact le_rfl
  · push_neg at hguard
    cases hb : beh (get_latest_scene fs sd + 1) (get_latest_scene fs sd + 1 + incr) with
    | error => exact le_rfl
    | empty =>
      show get_latest_scene fs sd ≤ min (get_latest_scene fs sd + 1 + incr) now
      omega
    | scenes l =>
      refine process_batch_latest_lb now sd (get_latest_scene fs sd) _ fs le_rfl ?_
      intro sc hsc
      have h1 := hwin _ _ l hb sc ((mem_scenes_in_time_order sc l).mp hsc)
      omega

/-- C7: across runs the persisted watermark is monotonically non-decreasing
— one pass and any number of looped passes never decrease it, provided the
catalog only returns scenes dated at or after the window start — and every
write of the watermark file stores a value clamped to at most now. -/
theorem C7_watermark_monotone_clamped (beh : Nat → Nat → CatalogResult)
    (now incr sd fuel : Nat) (fs : FolderState)
    (hwin : ∀ ts te l, beh ts te = CatalogResult.scenes l → ∀ sc ∈ l, ts ≤ sc.ts) :
    get_latest_scene fs sd ≤ get_latest_scene (monitor_folder_once beh now incr sd fs) sd ∧
    get_latest_scene fs sd ≤ get_latest_scene (monitor_folder_loop beh now incr sd fuel fs) sd ∧
    (∀ (g : FolderState) (t : Nat),
      ∃ u, (set_latest_scene now g t).latest_scene = some u ∧ u ≤ now) := by
  refine ⟨latest_mono_once beh now incr sd fs hwin, ?_, ?_⟩
  · induction fuel generalizing fs with
    | zero => exact le_rfl
    | succ f ih =>
      rw [monitor_folder_loop]
      split_ifs with hg
      · exact le_rfl
      · exact le_trans (latest_mono_once beh now incr sd fs hwin)
          (ih (monitor_folder_once beh now incr sd fs))
  · intro g t
    exact ⟨min t now, rfl, Nat.min_le_right t now⟩

/-- C7 witness: the statement instantiated at a concrete behaviour, clock
and folder. -/
theorem C7_watermark_monotone_clamped_witness :
    get_latest_scene ⟨some 18687, []⟩ 0
      ≤ get_latest_scene
          (monitor_folder_once (fun _ _ => CatalogResult.empty) 20000 7 0 ⟨some 18687, []⟩) 0 ∧
    get_latest_scene ⟨some 18687, []⟩ 0
      ≤ get_latest_scene
          (monitor_folder_loop (fun _ _ => CatalogResult.empty) 20000 7 0 3 ⟨some 18687, []⟩) 0 ∧
    (∀ (g : FolderState) (t : Nat),
      ∃ u, (set_latest_scene 20000 g t).latest_scene = some u ∧ u ≤ 20000) :=
  C7_watermark_monotone_clamped (fun _ _ => CatalogResult.empty) 20000 7 0 3
    ⟨some 18687, []⟩ (fun _ _ _ hl => nomatch hl)

/-! ## Claim C4 -/

/-- A controller pass whose window start is not in the future runs the
fetch on the window derived from the watermark. -/
theorem monitor_once_not_done (beh : Nat → Nat → CatalogResult)
    (now incr sd : Nat) (fs : FolderState)
    (h : ¬ (get_latest_scene fs sd + 1 > now)) :
    monitor_folder_once beh now incr sd fs
      = (fetch_data now (get_latest_scene fs sd + 1 + incr) fs
          (beh (get_latest_scene fs sd + 1) (get_latest_scene fs sd + 1 + incr))).1 := by
  unfold monitor_folder_once
  rw [if_neg h]

/-- Through the scene loop, the watermark either stays untouched or ends at
some written value of at least b, when every scene of the batch has a
clamped date of at least b. -/
theorem process_batch_latest_cases (now b : Nat) (l : List Scene) :
    ∀ (fs : FolderState),
      (∀ sc ∈ l, b ≤ min sc.ts now) →
      (process_batch now fs l).1.latest_scene = fs.latest_scene ∨
      (∃ u, (process_batch now fs l).1.latest_scene = some u ∧ b ≤ u) := by
  induction l with
  | nil => intro fs _; left; rfl
  | cons sc rest ih =>
    intro fs hl
    cases hd : fs.dirs.lookup sc.ts with
    | some d =>
      rw [process_batch_cons_skip now fs sc rest (by rw [hd]; rfl)]
      rcases ih (set_latest_scene now fs sc.ts)
          (fun x hx => hl x (List.mem_cons_of_mem sc hx)) with h | h
      · right
        refine ⟨min sc.ts now, ?_, hl sc (List.mem_cons_self sc rest)⟩
        rw [h]
        rfl
      · right; exact h
    | none =>
      cases ho : sc.outcome with
      | deriveError =>
        rw [process_batch_cons_derive now fs sc rest hd ho]
        rcases ih (mkdirScene fs sc.ts)
            (fun x hx => hl x (List.mem_cons_of_mem sc hx)) with h | h
        · left; rw [h]; rfl
        · right; exact h
      | writeError st =>
        rw [process_batch_cons_write now fs sc rest st hd ho]
        left; rfl
      | ok =>
        rw [process_batch_cons_ok now fs sc rest hd ho]
        rcases ih _ (fun x hx => hl x (List.mem_cons_of_mem sc hx)) with h | h
        · right
          refine ⟨min sc.ts now, ?_, hl sc (List.mem_cons_self sc rest)⟩
          rw [h]
          rfl
        · right; exact h

/-- Two-step progress: from a state whose window start is not in the
future, and whose successor state is not done either, two controller passes
strictly advance the watermark — either the first pass writes it (any write
is at least window start), or the first pass only created directories, in
which case the second pass skips the first scene of the identical batch and
that skip writes the watermark. -/
theorem monitor_once_two_step (beh : Nat → Nat → CatalogResult)
    (now incr sd : Nat) (fs : FolderState)
    (hne : ∀ ts te, beh ts te ≠ CatalogResult.error)
    (hwin : ∀ ts te l, beh ts te = CatalogResult.scenes l →
      l ≠ [] ∧ ∀ sc ∈ l, ts ≤ sc.ts)
    (h1 : get_latest_scene fs sd + 1 ≤ now)
    (h2 : get_latest_scene (monitor_folder_once beh now incr sd fs) sd + 1 ≤ now) :
    get_latest_scene fs sd
      < get_latest_scene
          (monitor_folder_once beh now incr sd (monitor_folder_once beh now incr sd fs)) sd := by
  have hwin1 : ∀ ts te l, beh ts te = CatalogResult.scenes l → ∀ sc ∈ l, ts ≤ sc.ts :=
    fun ts te l hb => (hwin ts te l hb).2
  have honce := monitor_once_not_done beh now incr sd fs (by omega)
  cases hb : beh (get_latest_scene fs sd + 1) (get_latest_scene fs sd + 1 + incr) with
  | error => exact absurd hb (hne _ _)
  | empty =>
    have hfs1 : get_latest_scene (monitor_folder_once beh now incr sd fs) sd
        = min (get_latest_scene fs sd + 1 + incr) now := by
      rw [honce, hb]
      rfl
    calc get_latest_scene fs sd
        < get_latest_scene (monitor_folder_once beh now incr sd fs) sd := by
          rw [hfs1]; omega
      _ ≤ _ := latest_mono_once beh now incr sd _ hwin1
  | scenes l =>
    obtain ⟨hlne, hts⟩ := hwin _ _ l hb
    have hmemts : ∀ sc ∈ scenes_in_time_order l,
        get_latest_scene fs sd + 1 ≤ min sc.ts now := by
      intro sc hsc
      have := hts sc ((mem_scenes_in_time_order sc l).mp hsc)
      omega
    have hfs1 : monitor_folder_once beh now incr sd fs
        = (process_batch now fs (scenes_in_time_order l)).1 := by
      rw [honce, hb]
      rfl
    rcases process_batch_latest_cases now (get_latest_scene fs sd + 1)
        (scenes_in_time_order l) fs hmemts with hcase | hcase
    · -- the first pass wrote nothing: its watermark equals the old one
      have hW1 : get_latest_scene (monitor_folder_once beh now incr sd fs) sd
          = get_latest_scene fs sd := by
        rw [hfs1]
        show ((process_batch now fs (scenes_in_time_order l)).1.latest_scene).getD sd
            = get_latest_scene fs sd
        rw [hcase]
        rfl
      obtain ⟨hd, tl, hm⟩ : ∃ hd tl, scenes_in_time_order l = hd :: tl := by
        rcases hx : scenes_in_time_order l with _ | ⟨a, b⟩
        · exact absurd hx (scenes_in_time_order_ne_nil l hlne)
        · exact ⟨a, b, rfl⟩
      have hdir : dirExists (monitor_folder_once beh now incr sd fs) hd.ts = true := by
        rw [hfs1, hm]
        exact dirExists_head_after_batch now fs hd tl
      have honce2 : monitor_folder_once beh now incr sd (monitor_folder_once beh now incr sd fs)
          = (process_batch now (monitor_folder_once beh now incr sd fs)
              (scenes_in_time_order l)).1 := by
        rw [monitor_once_not_done beh now incr sd _ (by omega), hW1, hb]
        rfl
      rw [honce2, hm]
      rw [process_batch_cons_skip now _ hd tl hdir]
      have hlb := process_batch_latest_lb now sd (get_latest_scene fs sd + 1) tl
        (set_latest_scene now (monitor_folder_once beh now incr sd fs) hd.ts)
        (by
          show get_latest_scene fs sd + 1 ≤ min hd.ts now
          exact hmemts hd (by rw [hm]; exact List.mem_cons_self hd tl))
        (fun x hx => hmemts x (by rw [hm]; exact List.mem_cons_of_mem hd hx))
      exact lt_of_lt_of_le (Nat.lt_succ_self _) hlb
    · -- the first pass wrote the watermark: it is already past the old one
      obtain ⟨u, hu, hub⟩ := hcase
      have hW1 : get_latest_scene fs sd + 1
          ≤ get_latest_scene (monitor_folder_once beh now incr sd fs) sd := by
        rw [hfs1]
        show get_latest_scene fs sd + 1
            ≤ ((process_batch now fs (scenes_in_time_order l)).1.latest_scene).getD sd
        rw [hu]
        exact hub
      calc get_latest_scene fs sd
          < get_latest_scene (monitor_folder_once beh now incr sd fs) sd := by omega
        _ ≤ _ := latest_mono_once beh now incr sd _ hwin1

/-- With fuel twice the distance from the watermark to now, the loop
reaches the done guard: the recursion of the source terminates. -/
theorem monitor_loop_reaches_guard (beh : Nat → Nat → CatalogResult)
    (now incr sd : Nat)
    (hne : ∀ ts te, beh ts te ≠ CatalogResult.error)
    (hwin : ∀ ts te l, beh ts te = CatalogResult.scenes l →
      l ≠ [] ∧ ∀ sc ∈ l, ts ≤ sc.ts) :
    ∀ (d : Nat) (fs : FolderState), now < get_latest_scene fs sd + d →
      now < get_latest_scene (monitor_folder_loop beh now incr sd (2 * d) fs) sd + 1 := by
  intro d
  induction d with
  | zero =>
    intro fs h
    rw [show 2 * 0 = 0 from rfl]
    show now < get_latest_scene fs sd + 1
    omega
  | succ d ih =>
    intro fs h
    rw [show 2 * (d + 1) = 2 * d + 1 + 1 from by ring]
    simp only [monitor_folder_loop]
    split_ifs with hg1 hg2
    · omega
    · omega
    · push_neg at hg1 hg2
      have hstep := monitor_once_two_step beh now incr sd fs hne hwin
        (by omega) (by omega)
      exact ih (monitor_folder_once beh now incr sd (monitor_folder_once beh now incr sd fs))
        (by omega)

/-- C4 counterexample: with a catalog behaviour that always raises a query
error, a pass neither advances the watermark nor has its window start in
the future (now = 10, watermark absent, START_DATE 0), and the
run-till-complete loop is still in the identical stuck state after 50
passes: the recursion never reaches the done guard, so the claim that every
iteration advances the watermark or returns is false. -/
theorem C4_catalog_error_stalls_loop :
    monitor_folder_once (fun _ _ => CatalogResult.error) 10 7 0 ⟨none, []⟩ = ⟨none, []⟩ ∧
    ¬ (get_latest_scene ⟨none, []⟩ 0 + 1 > 10) ∧
    monitor_folder_loop (fun _ _ => CatalogResult.error) 10 7 0 50 ⟨none, []⟩
      = ⟨none, []⟩ := by
  refine ⟨rfl, by decide, by decide⟩

/-- C4 (amended): `monitor_folder` with run_till_complete terminates for
every starting watermark and clock provided the catalog behaviour never
raises a run-level error and every loaded batch is non-empty with scene
dates at or after the window start: within 2*(now+1) passes the computed
window start is strictly after now (each pass either strictly advances the
persisted watermark or the following pass does, because the directories
created by a failing pass are skipped — and skipping advances — on the
next identical window). -/
theorem C4_termination_amended (beh : Nat → Nat → CatalogResult)
    (now incr sd : Nat) (fs : FolderState)
    (hne : ∀ ts te, beh ts te ≠ CatalogResult.error)
    (hwin : ∀ ts te l, beh ts te = CatalogResult.scenes l →
      l ≠ [] ∧ ∀ sc ∈ l, ts ≤ sc.ts) :
    now < get_latest_scene
        (monitor_folder_loop beh now incr sd (2 * (now + 1)) fs) sd + 1 :=
  monitor_loop_reaches_guard beh now incr sd hne hwin (now + 1) fs (by omega)

/-- C4 witness: the amended statement at a concrete always-empty behaviour,
now = 3 and an empty folder. -/
theorem C4_termination_amended_witness :
    3 < get_latest_scene
        (monitor_folder_loop (fun _ _ => CatalogResult.empty) 3 7 0 (2 * (3 + 1))
          ⟨none, []⟩) 0 + 1 :=
  C4_termination_amended (fun _ _ => CatalogResult.empty) 3 7 0 ⟨none, []⟩
    (fun _ _ hl => nomatch hl) (fun _ _ _ hl => nomatch hl)

end EodalBasetiffs
